import Mathlib

/-!
Verification development for the Agent Delegation Protocol repository.

Shallow embedding of the authorization core: the JWT signer/verifier
(`auth_server.py`, PyJWT usage), the delegation data model
(`data_models.py`), the storage manager (`storage_manager.py`) and the
authorization HTTP endpoints (`auth_server.py`).

Modelling conventions:
* Time is `Nat` seconds since epoch; `timedelta(minutes=m)` is `m * 60`.
* JWTs are modelled symbolically: a token is a header algorithm, a claim
  set, and a signature; an HMAC signature is the constructor
  `Sig.hmac alg secret payload`, so signature verification is structural
  equality (standard symbolic-crypto assumption: HMAC is unforgeable and
  collision-free).
* `base64url_nopad(sha256 s)` is modelled by the concrete injective
  function `s256hash`, a symbolic stand-in for the hash composition used
  by the PKCE check (collision resistance of SHA-256 is assumed, so the
  stand-in is injective).
* Python dicts keyed by strings are association lists; `set` objects of
  token strings are lists used up to membership.
* Code that raises returns `Except String`; a raised `ValueError e`
  is `.error e`.
-/

/-- Status values of the `DelegationStatus` enum in `data_models.py`. -/
inductive DelegationStatus where
  | pending
  | approved
  | denied
  | expired
  | revoked
deriving DecidableEq, Repr

/-- Status values of the `AgentStatus` enum in `data_models.py`. -/
inductive AgentStatus where
  | active
  | inactive
  | suspended
deriving DecidableEq, Repr

/-- JWT claim sets as built by `auth_server.py` and `data_models.py`.
Fields that some mint sites omit are `Option`s (a `none` models the key
being absent from the Python dict). -/
structure Claims where
  iss : String
  sub : String
  delegator : Option String := none
  actor : Option String := none
  scope : List String := []
  exp : Nat
  iat : Nat
  jti : Option String := none
  delegation_id : Option String := none
  code_challenge : Option String := none
  code_challenge_method : Option String := none
deriving DecidableEq, Repr

/-- Symbolic JWT signatures. `hmac alg secret payload` is the signature
produced by signing `payload` with `secret` under algorithm `alg`;
`forged` is any byte string that was not produced by signing. -/
inductive Sig where
  | hmac (alg : String) (secret : String) (payload : Claims)
  | forged (bits : String)
deriving DecidableEq, Repr

/-- A structurally well-formed JWT: `header.payload.signature` with the
header declaring `alg`. -/
structure Token where
  alg : String
  payload : Claims
  sig : Sig
deriving DecidableEq, Repr

/-- A token string presented on the wire: either a well-formed compact
JWT or a malformed string that fails base64/JSON parsing. -/
inductive TokenStr where
  | wellFormed (t : Token)
  | malformed (s : String)
deriving DecidableEq, Repr

/-- PyJWT decode failures as caught by the repository: `expired` is
`jwt.ExpiredSignatureError`, `invalid` is any other
`jwt.InvalidTokenError` (malformed, bad signature, wrong or unknown
algorithm including `none`). -/
inductive JwtError where
  | expired
  | invalid
deriving DecidableEq, Repr

deriving instance DecidableEq for Except

/-- Model of `jwt.encode(claims, secret, algorithm=alg)`. -/
def jwtEncode (claims : Claims) (secret : String) (alg : String) : TokenStr :=
  .wellFormed { alg := alg, payload := claims, sig := .hmac alg secret claims }

/-- Model of `jwt.decode(token, secret, algorithms=allowed)`: reject a
malformed string; reject a header algorithm outside `allowed` (in
particular `none` and unknown algorithms); reject a signature that is
not the HMAC of the payload under `secret` and the declared algorithm;
then raise `ExpiredSignatureError` when `exp <= now`. -/
def jwtDecode (t : TokenStr) (secret : String) (allowed : List String)
    (now : Nat) : Except JwtError Claims :=
  match t with
  | .malformed _ => .error .invalid
  | .wellFormed tok =>
    if tok.alg ∉ allowed then .error .invalid
    else if tok.sig ≠ Sig.hmac tok.alg secret tok.payload then .error .invalid
    else if tok.payload.exp ≤ now then .error .expired
    else .ok tok.payload

/-- Model of `jwt.decode(token, options=\x7b"verify_signature": False\x7d)`:
parse without verifying signature, algorithm or expiry. -/
def jwtDecodeUnverified (t : TokenStr) : Except JwtError Claims :=
  match t with
  | .malformed _ => .error .invalid
  | .wellFormed tok => .ok tok.payload

/-- Process configuration from `config.py` (fields the core uses). -/
structure Config where
  jwt_secret : String
  jwt_algorithm : String
  access_token_expiry : Nat
  delegation_token_expiry : Nat
  auth_server_url : String
deriving DecidableEq, Repr

/-- Agent record from `data_models.py` (fields the core logic reads). -/
structure Agent where
  id : String
  name : String
  description : String := ""
  scopes : List String := []
  status : AgentStatus := .active
  created_at : Nat := 0
  last_used : Option Nat := none
  delegation_count : Nat := 0
deriving DecidableEq, Repr

/-- Model of `Agent.increment_delegation_count` (also touches
`last_used` via `update_last_used`). -/
def Agent.increment_delegation_count (a : Agent) (now : Nat) : Agent :=
  { a with delegation_count := a.delegation_count + 1, last_used := some now }

/-- Delegation record from `data_models.py`. Timestamps are `Nat`
seconds; `none` models a Python `None`. -/
structure Delegation where
  id : String
  agent_id : String
  agent_name : String
  user_id : String
  scopes : List String
  status : DelegationStatus := .pending
  created_at : Nat := 0
  approved_at : Option Nat := none
  expires_at : Nat
  delegation_token : Option TokenStr := none
  access_token : Option TokenStr := none
  revoked_at : Option Nat := none
deriving DecidableEq, Repr

/-- Model of `Delegation.is_expired`: `datetime.utcnow() > expiry_time`. -/
def Delegation.is_expired (d : Delegation) (now : Nat) : Bool :=
  d.expires_at < now

/-- Model of `Delegation.is_active`: approved and not expired. -/
def Delegation.is_active (d : Delegation) (now : Nat) : Bool :=
  d.status = DelegationStatus.approved && !(d.is_expired now)

/-- Model of `Delegation.approve`: only from `pending`; sets status and
`approved_at`, then mints the delegation token with the claim set built
in the source (`exp = now + delegation_token_expiry minutes`, claims
carrying `delegation_id`) and records it on the entity. The fresh
`uuid`-based `jti` is passed in as `jti`. Returns the updated delegation
together with the token the Python method returns. -/
def Delegation.approve (d : Delegation) (cfg : Config) (now : Nat)
    (jti : String) : Except String (Delegation × TokenStr) :=
  if d.status ≠ DelegationStatus.pending then
    .error "Only pending delegations can be approved"
  else
    let delegation_claims : Claims :=
      { iss := cfg.auth_server_url
        sub := d.agent_id
        delegator := some d.user_id
        scope := d.scopes
        exp := now + cfg.delegation_token_expiry * 60
        iat := now
        delegation_id := some d.id
        jti := some jti }
    let tok := jwtEncode delegation_claims cfg.jwt_secret cfg.jwt_algorithm
    .ok ({ d with
            status := DelegationStatus.approved
            approved_at := some now
            delegation_token := some tok }, tok)

/-- Model of `Delegation.deny`: only from `pending`. -/
def Delegation.deny (d : Delegation) : Except String Delegation :=
  if d.status ≠ DelegationStatus.pending then
    .error "Only pending delegations can be denied"
  else
    .ok { d with status := DelegationStatus.denied }

/-- Model of `Delegation.revoke`: only from `approved` or `pending`;
sets status to `revoked` and stamps `revoked_at`. -/
def Delegation.revoke (d : Delegation) (now : Nat) :
    Except String Delegation :=
  if d.status ≠ DelegationStatus.approved ∧ d.status ≠ DelegationStatus.pending then
    .error "Only approved or pending delegations can be revoked"
  else
    .ok { d with status := DelegationStatus.revoked, revoked_at := some now }

/-- Model of `Delegation.generate_access_token`: requires
`is_active()`; the minted claims use `exp = now + access_token_expiry
minutes` (the source takes no minimum with `expires_at`). Returns the
updated delegation (which records the token) and the token. -/
def Delegation.generate_access_token (d : Delegation) (cfg : Config)
    (now : Nat) (jti : String) : Except String (Delegation × TokenStr) :=
  if !(d.is_active now) then
    .error "Cannot generate access token for inactive delegation"
  else
    let access_claims : Claims :=
      { iss := cfg.auth_server_url
        sub := d.user_id
        actor := some d.agent_id
        scope := d.scopes
        exp := now + cfg.access_token_expiry * 60
        iat := now
        delegation_id := some d.id
        jti := some jti }
    let tok := jwtEncode access_claims cfg.jwt_secret cfg.jwt_algorithm
    .ok ({ d with access_token := some tok }, tok)

example :
    (Delegation.approve
      { id := "d1", agent_id := "a1", agent_name := "A", user_id := "alice",
        scopes := ["read:data"], expires_at := 600 }
      { jwt_secret := "s", jwt_algorithm := "HS256", access_token_expiry := 5,
        delegation_token_expiry := 10, auth_server_url := "http://auth" }
      0 "del-1").isOk = true := by decide

/-- Symbolic stand-in for `base64.urlsafe_b64encode(hashlib.sha256(v).digest()).rstrip(b"=")`
used by the PKCE S256 check in `auth_server.py`. A concrete injective
function models the hash composition (collision resistance assumption). -/
def s256hash (verifier : String) : String :=
  "sha256:" ++ verifier

/-- Whitespace word-splitting on a character list: the accumulator
holds the current word reversed. -/
def wordsAux : List Char → List Char → List (List Char)
  | [], acc => if acc = [] then [] else [acc.reverse]
  | c :: cs, acc =>
    if c.isWhitespace then
      if acc = [] then wordsAux cs [] else acc.reverse :: wordsAux cs []
    else
      wordsAux cs (c :: acc)

/-- Python `str.split()` with no argument: split on whitespace runs,
dropping empty pieces. Used by `authorize` on the `scope` parameter. -/
def pySplit (s : String) : List String :=
  (wordsAux s.data []).map String.mk

/-- Record returned by `TokenInfo.from_token` in `data_models.py`.
`claims = none` models the empty dict; `expires_at`/`issued_at = none`
model the empty string of the invalid branch. -/
structure TokenInfo where
  token : TokenStr
  token_type : String
  claims : Option Claims
  is_valid : Bool
  is_expired : Bool
  is_revoked : Bool
  expires_at : Option Nat
  issued_at : Option Nat
  time_to_expiry_seconds : Nat
  subject : String
  scopes : List String
deriving DecidableEq, Repr

/-- The record built by the `except jwt.InvalidTokenError` branch of
`TokenInfo.from_token`. -/
def TokenInfo.invalidRecord (token : TokenStr) : TokenInfo :=
  { token := token
    token_type := "invalid"
    claims := none
    is_valid := false
    is_expired := false
    is_revoked := false
    expires_at := none
    issued_at := none
    time_to_expiry_seconds := 0
    subject := ""
    scopes := [] }

/-- Model of `TokenInfo.from_token`: decode without verification first
(failure lands in the `InvalidTokenError` branch), then decode with
signature/algorithm verification; `ExpiredSignatureError` lands in the
expired branch built from the unverified claims; any other failure lands
in the invalid branch. Total by construction, as the Python method
catches every decode error. -/
def TokenInfo.from_token (token : TokenStr) (revoked_tokens : List TokenStr)
    (cfg : Config) (now : Nat) : TokenInfo :=
  match jwtDecodeUnverified token with
  | .error _ => TokenInfo.invalidRecord token
  | .ok unverified_claims =>
    match jwtDecode token cfg.jwt_secret [cfg.jwt_algorithm] now with
    | .error .invalid => TokenInfo.invalidRecord token
    | .error .expired =>
      { token := token
        token_type := "unknown"
        claims := some unverified_claims
        is_valid := false
        is_expired := true
        is_revoked := false
        expires_at := some unverified_claims.exp
        issued_at := some unverified_claims.iat
        time_to_expiry_seconds := 0
        subject := unverified_claims.sub
        scopes := unverified_claims.scope }
    | .ok verified_claims =>
      let token_type :=
        if verified_claims.actor.isSome then "access" else "delegation"
      let is_expired := verified_claims.exp ≤ now
      let is_revoked := token ∈ revoked_tokens
      let is_valid := !is_expired && !is_revoked
      { token := token
        token_type := token_type
        claims := some verified_claims
        is_valid := is_valid
        is_expired := is_expired
        is_revoked := is_revoked
        expires_at := some verified_claims.exp
        issued_at := some verified_claims.iat
        time_to_expiry_seconds := verified_claims.exp - now
        subject := verified_claims.sub
        scopes := verified_claims.scope }

/-- Association-list lookup, modelling Python `dict.get`. -/
def dictGet {α : Type} (l : List (String × α)) (k : String) : Option α :=
  (l.find? (fun p => p.1 = k)).map (fun p => p.2)

/-- Association-list write, modelling Python `dict[k] = v`: update the
value when the key is present, append otherwise. -/
def dictSet {α : Type} (l : List (String × α)) (k : String) (v : α) :
    List (String × α) :=
  if (l.find? (fun p => p.1 = k)).isSome then
    l.map (fun p => if p.1 = k then (k, v) else p)
  else
    l ++ [(k, v)]

/-- Association-list delete, modelling Python `del dict[k]`. -/
def dictDel {α : Type} (l : List (String × α)) (k : String) :
    List (String × α) :=
  l.filter (fun p => p.1 ≠ k)

/-- Python `set.add` on a token set represented as a list: add when not
already a member. -/
def addToken (l : List TokenStr) (t : TokenStr) : List TokenStr :=
  if t ∈ l then l else t :: l

/-- The mutable state of `StorageManager` (`storage_manager.py`):
agents, users (username to password), delegations, the active-token list
and the revoked-token set. The activity log carries no security state
and is omitted. -/
structure Store where
  agents : List (String × Agent) := []
  users : List (String × String) := []
  delegations : List (String × Delegation) := []
  active_tokens : List TokenStr := []
  revoked_tokens : List TokenStr := []
deriving DecidableEq, Repr

namespace StorageManager

/-- Model of `StorageManager.create_agent`: the caller-resolved agent
record `a` (with its id) is inserted; a duplicate id raises. -/
def create_agent (st : Store) (a : Agent) : Except String Agent × Store :=
  if (dictGet st.agents a.id).isSome then
    (.error "Agent already exists", st)
  else
    (.ok a, { st with agents := dictSet st.agents a.id a })

/-- Model of `StorageManager.get_agent`. -/
def get_agent (st : Store) (agent_id : String) : Option Agent :=
  dictGet st.agents agent_id

/-- Model of `StorageManager.update_agent`: the update of permitted
mutable fields is abstracted as a function `f` that preserves the id. -/
def update_agent (st : Store) (agent_id : String) (f : Agent → Agent) :
    Except String Agent × Store :=
  match dictGet st.agents agent_id with
  | none => (.error "Agent not found", st)
  | some a =>
    let a' := { f a with id := a.id }
    (.ok a', { st with agents := dictSet st.agents agent_id a' })

/-- The per-delegation update performed by the cascade loop in
`StorageManager.delete_agent`: delegations of the deleted agent in
state `approved` are revoked via `Delegation.revoke` (which cannot fail
there, the status being `approved`). -/
def cascadeRevoke (agent_id : String) (now : Nat)
    (p : String × Delegation) : String × Delegation :=
  if p.2.agent_id = agent_id ∧ p.2.status = DelegationStatus.approved then
    match p.2.revoke now with
    | .ok d' => (p.1, d')
    | .error _ => p
  else p

/-- Model of `StorageManager.delete_agent`: remove the agent record,
then revoke every approved delegation of that agent. The revoked-token
set is not touched. -/
def delete_agent (st : Store) (agent_id : String) (now : Nat) :
    Bool × Store :=
  if (dictGet st.agents agent_id).isNone then
    (false, st)
  else
    (true, { st with
              agents := dictDel st.agents agent_id
              delegations := st.delegations.map (cascadeRevoke agent_id now) })

/-- Model of `StorageManager.create_user`. -/
def create_user (st : Store) (username password : String) : Bool × Store :=
  if (dictGet st.users username).isSome then
    (false, st)
  else
    (true, { st with users := dictSet st.users username password })

/-- Model of `StorageManager.get_user`. -/
def get_user (st : Store) (username : String) : Option String :=
  dictGet st.users username

/-- Model of `StorageManager.create_delegation`: requires the agent and
the user to exist; the fresh uuid-based id is passed as `did`; the new
delegation gets the agent's name, status `pending` (dataclass default)
and `expires_at = now + delegation_token_expiry minutes` (set by
`Delegation.__post_init__` since the callers pass no `expires_at`).
Scopes are stored as requested, with no validation against the agent's
`scopes`. -/
def create_delegation (st : Store) (cfg : Config) (did agent_id user_id : String)
    (scopes : List String) (now : Nat) : Except String Delegation × Store :=
  match dictGet st.agents agent_id with
  | none => (.error "Agent not found", st)
  | some ag =>
    if (dictGet st.users user_id).isNone then
      (.error "User not found", st)
    else
      let d : Delegation :=
        { id := did
          agent_id := agent_id
          agent_name := ag.name
          user_id := user_id
          scopes := scopes
          created_at := now
          expires_at := now + cfg.delegation_token_expiry * 60 }
      (.ok d, { st with delegations := dictSet st.delegations did d })

/-- Model of `StorageManager.get_delegation`. -/
def get_delegation (st : Store) (delegation_id : String) : Option Delegation :=
  dictGet st.delegations delegation_id

/-- Model of `StorageManager.approve_delegation`: look up, call
`Delegation.approve` (a raise leaves the store untouched), then store
the updated delegation and bump the agent's delegation counter. -/
def approve_delegation (st : Store) (cfg : Config) (delegation_id : String)
    (now : Nat) (jti : String) : Except String TokenStr × Store :=
  match dictGet st.delegations delegation_id with
  | none => (.error "Delegation not found", st)
  | some d =>
    match d.approve cfg now jti with
    | .error e => (.error e, st)
    | .ok (d', tok) =>
      let st1 := { st with delegations := dictSet st.delegations delegation_id d' }
      let st2 :=
        match dictGet st1.agents d'.agent_id with
        | some ag =>
          { st1 with agents :=
              dictSet st1.agents d'.agent_id (ag.increment_delegation_count now) }
        | none => st1
      (.ok tok, st2)

/-- Model of `StorageManager.deny_delegation`. -/
def deny_delegation (st : Store) (delegation_id : String) :
    Except String Bool × Store :=
  match dictGet st.delegations delegation_id with
  | none => (.ok false, st)
  | some d =>
    match d.deny with
    | .error e => (.error e, st)
    | .ok d' => (.ok true, { st with delegations := dictSet st.delegations delegation_id d' })

/-- Model of `StorageManager.revoke_delegation`: the delegation's
outstanding delegation token and access token (when present) are added
to the revoked set, then `Delegation.revoke` moves the status; the
whole call runs under the storage lock, so the update is atomic. When
`Delegation.revoke` raises (status neither pending nor approved), the
tokens have already been added in memory, which the returned store
reflects, and the error propagates. -/
def revoke_delegation (st : Store) (delegation_id : String) (now : Nat) :
    Except String Bool × Store :=
  match dictGet st.delegations delegation_id with
  | none => (.ok false, st)
  | some d =>
    let revoked1 :=
      match d.delegation_token with
      | some t => addToken st.revoked_tokens t
      | none => st.revoked_tokens
    let revoked2 :=
      match d.access_token with
      | some t => addToken revoked1 t
      | none => revoked1
    let st1 := { st with revoked_tokens := revoked2 }
    match d.revoke now with
    | .error e => (.error e, st1)
    | .ok d' =>
      (.ok true, { st1 with delegations := dictSet st1.delegations delegation_id d' })

/-- Model of `StorageManager.add_active_token`. -/
def add_active_token (st : Store) (t : TokenStr) : Store :=
  if t ∈ st.active_tokens then st
  else { st with active_tokens := st.active_tokens ++ [t] }

/-- Model of `StorageManager.revoke_token`. -/
def revoke_token (st : Store) (t : TokenStr) : Store :=
  { st with revoked_tokens := addToken st.revoked_tokens t }

/-- Model of `StorageManager.is_token_revoked`. -/
def is_token_revoked (st : Store) (t : TokenStr) : Bool :=
  t ∈ st.revoked_tokens

/-- Model of `StorageManager.get_active_tokens`: analyse each tracked
token that is not revoked and keep the valid ones. -/
def get_active_tokens (st : Store) (cfg : Config) (now : Nat) : List TokenInfo :=
  (st.active_tokens.filter (fun t => t ∉ st.revoked_tokens)).filterMap
    (fun t =>
      let info := TokenInfo.from_token t st.revoked_tokens cfg now
      if info.is_valid then some info else none)

/-- Model of `StorageManager.cleanup_expired_tokens`: drop expired
tokens from the active list; the revoked set is untouched. -/
def cleanup_expired_tokens (st : Store) (cfg : Config) (now : Nat) : Store :=
  { st with active_tokens :=
      (st.active_tokens.filter
        (fun t => !(TokenInfo.from_token t st.revoked_tokens cfg now).is_expired)) }

end StorageManager

/-- Response of the `/introspect` endpoint: `active` plus the decoded
claims when active (the Python handler splices `**decoded` into the
JSON object). -/
structure IntrospectResponse where
  active : Bool
  claims : Option Claims
deriving DecidableEq, Repr

/-- Model of the `/introspect` handler in `auth_server.py`: decode with
the configured secret pinning algorithms `["HS256"]`; any decode failure
(malformed, bad signature, wrong algorithm, expired) yields
`active = false`; a revoked token yields `active = false`; otherwise
`active = true` with the claims. -/
def introspect (st : Store) (secret : String) (now : Nat)
    (token : TokenStr) : IntrospectResponse :=
  match jwtDecode token secret ["HS256"] now with
  | .error _ => { active := false, claims := none }
  | .ok decoded =>
    if StorageManager.is_token_revoked st token then
      { active := false, claims := none }
    else
      { active := true, claims := some decoded }

/-- Model of the `/revoke` handler: always succeeds, adds the token to
the revocation set. -/
def revoke_endpoint (st : Store) (token : TokenStr) : Store :=
  StorageManager.revoke_token st token

/-- Errors of the `/authorize` handler (the 403 plain-text bodies). -/
inductive AuthorizeError where
  | agentNotRegistered
  | userNotFound
deriving DecidableEq, Repr

/-- Model of the `/authorize` handler (no IdP configured): requires the
agent and the user to exist, then mints a delegation token whose scope
is the whitespace-split `scope` query parameter, with
`exp = now + delegation_token_expiry minutes`, the PKCE fields as
presented (`code_challenge_method` defaulting to `"plain"`), and no
scope validation against the agent's `scopes`. The token is signed with
the literal algorithm `"HS256"`. -/
def authorize (st : Store) (cfg : Config) (client_id : String)
    (user : String) (scope : String) (code_challenge : Option String)
    (code_challenge_method : Option String) (now : Nat) :
    Except AuthorizeError TokenStr :=
  if (StorageManager.get_agent st client_id).isNone then
    .error .agentNotRegistered
  else if (StorageManager.get_user st user).isNone then
    .error .userNotFound
  else
    let delegation : Claims :=
      { iss := cfg.auth_server_url
        sub := client_id
        delegator := some user
        scope := pySplit scope
        exp := now + cfg.delegation_token_expiry * 60
        iat := now
        code_challenge := code_challenge
        code_challenge_method := some (code_challenge_method.getD "plain") }
    .ok (jwtEncode delegation cfg.jwt_secret "HS256")

/-- Errors of the `/token` handler. `internal` models the unhandled
`KeyError` (HTTP 500) raised when a verified delegation token lacks the
`delegator` claim; every server-minted delegation token carries it. -/
inductive TokenEndpointError where
  | expired
  | invalid
  | revoked
  | pkceRequired
  | pkceMismatch
  | internal
deriving DecidableEq, Repr

/-- The PKCE block of the `/token` handler (`auth_server.py` lines
258-271): when a challenge is recorded a verifier must be presented;
method `S256` compares `base64url_nopad(sha256(verifier))` with the
challenge; any other method compares the verifier directly. -/
def pkce_check (challenge : Option String) (challenge_method : String)
    (code_verifier : Option String) : Except TokenEndpointError Unit :=
  match challenge with
  | none => .ok ()
  | some ch =>
    match code_verifier with
    | none => .error .pkceRequired
    | some v =>
      if challenge_method = "S256" then
        if s256hash v ≠ ch then .error .pkceMismatch else .ok ()
      else
        if v ≠ ch then .error .pkceMismatch else .ok ()

/-- Success body of the `/token` handler. -/
structure TokenResponse where
  access_token : TokenStr
  token_type : String
deriving DecidableEq, Repr

/-- Model of the `/token` handler: verify the delegation token (secret,
algorithms `["HS256"]`), reject revoked tokens, run the PKCE check, then
mint the access token with `sub = delegation.delegator`,
`actor = delegation.sub`, the delegation's scope, and
`exp = now + access_token_expiry minutes` (no bound by any delegation
record), `jti` counted from the valid active tokens, and record it in
the active-token list. -/
def token_endpoint (st : Store) (cfg : Config) (now : Nat)
    (token_str : TokenStr) (code_verifier : Option String) :
    Except TokenEndpointError (TokenResponse × Store) :=
  match jwtDecode token_str cfg.jwt_secret ["HS256"] now with
  | .error .expired => .error .expired
  | .error .invalid => .error .invalid
  | .ok delegation =>
    if StorageManager.is_token_revoked st token_str then
      .error .revoked
    else
      match pkce_check delegation.code_challenge
          (delegation.code_challenge_method.getD "plain") code_verifier with
      | .error e => .error e
      | .ok _ =>
        match delegation.delegator with
        | none => .error .internal
        | some delegator =>
          let active_tokens := StorageManager.get_active_tokens st cfg now
          let access_claim : Claims :=
            { iss := cfg.auth_server_url
              sub := delegator
              actor := some delegation.sub
              scope := delegation.scope
              exp := now + cfg.access_token_expiry * 60
              iat := now
              jti := some ("token-" ++ toString (active_tokens.length + 1)) }
          let access_token := jwtEncode access_claim cfg.jwt_secret "HS256"
          .ok ({ access_token := access_token, token_type := "Bearer" },
               StorageManager.add_active_token st access_token)

/-- One observable state change of the system: every operation of the
repository that mutates the storage manager's state, each applied
through its model above. The label-free relation is used to reason about
properties preserved across any process history. -/
inductive Step (cfg : Config) : Store → Store → Prop
  | create_agent (st : Store) (a : Agent) :
      Step cfg st (StorageManager.create_agent st a).2
  | update_agent (st : Store) (agent_id : String) (f : Agent → Agent) :
      Step cfg st (StorageManager.update_agent st agent_id f).2
  | delete_agent (st : Store) (agent_id : String) (now : Nat) :
      Step cfg st (StorageManager.delete_agent st agent_id now).2
  | create_user (st : Store) (username password : String) :
      Step cfg st (StorageManager.create_user st username password).2
  | create_delegation (st : Store) (did agent_id user_id : String)
      (scopes : List String) (now : Nat) :
      Step cfg st (StorageManager.create_delegation st cfg did agent_id user_id scopes now).2
  | approve_delegation (st : Store) (delegation_id : String) (now : Nat) (jti : String) :
      Step cfg st (StorageManager.approve_delegation st cfg delegation_id now jti).2
  | deny_delegation (st : Store) (delegation_id : String) :
      Step cfg st (StorageManager.deny_delegation st delegation_id).2
  | revoke_delegation (st : Store) (delegation_id : String) (now : Nat) :
      Step cfg st (StorageManager.revoke_delegation st delegation_id now).2
  | add_active_token (st : Store) (t : TokenStr) :
      Step cfg st (StorageManager.add_active_token st t)
  | revoke_token (st : Store) (t : TokenStr) :
      Step cfg st (StorageManager.revoke_token st t)
  | cleanup_expired_tokens (st : Store) (now : Nat) :
      Step cfg st (StorageManager.cleanup_expired_tokens st cfg now)
  | token_exchange (st st' : Store) (now : Nat) (token_str : TokenStr)
      (code_verifier : Option String) (resp : TokenResponse) :
      token_endpoint st cfg now token_str code_verifier = .ok (resp, st') →
      Step cfg st st'

/-- Reflexive-transitive closure of `Step`: any finite process history. -/
def Steps (cfg : Config) : Store → Store → Prop :=
  Relation.ReflTransGen (Step cfg)

/-! Helper lemmas about the dictionary and token-set models. -/

lemma dictGet_cons {α : Type} (p : String × α) (tl : List (String × α))
    (k : String) :
    dictGet (p :: tl) k = if p.1 = k then some p.2 else dictGet tl k := by
  unfold dictGet
  rw [List.find?_cons]
  by_cases hk : p.1 = k
  · simp [hk]
  · simp [hk]

lemma dictGet_update {α : Type} (l : List (String × α)) (k : String) (v : α) :
    dictGet (l.map (fun p => if p.1 = k then (k, v) else p)) k =
      (dictGet l k).map (fun _ => v) := by
  induction l with
  | nil => rfl
  | cons p tl ih =>
    by_cases hk : p.1 = k
    · rw [List.map_cons, if_pos hk, dictGet_cons, dictGet_cons, if_pos hk]
      simp
    · rw [List.map_cons, if_neg hk, dictGet_cons, dictGet_cons, if_neg hk,
        if_neg hk, ih]

lemma dictGet_append_single {α : Type} (l : List (String × α)) (k : String)
    (v : α) (h : dictGet l k = none) :
    dictGet (l ++ [(k, v)]) k = some v := by
  induction l with
  | nil => simp [dictGet_cons]
  | cons p tl ih =>
    rw [List.cons_append, dictGet_cons]
    rw [dictGet_cons] at h
    by_cases hk : p.1 = k
    · rw [if_pos hk] at h
      exact absurd h (by simp)
    · rw [if_neg hk] at h ⊢
      exact ih h

lemma dictGet_set_self {α : Type} (l : List (String × α)) (k : String) (v : α) :
    dictGet (dictSet l k v) k = some v := by
  unfold dictSet
  by_cases h : (l.find? (fun p => p.1 = k)).isSome
  · rw [if_pos h]
    have h' : (dictGet l k).isSome := by
      unfold dictGet
      simpa using h
    rw [dictGet_update]
    obtain ⟨w, hw⟩ := Option.isSome_iff_exists.mp h'
    rw [hw]
    rfl
  · rw [if_neg h]
    apply dictGet_append_single
    unfold dictGet
    rw [Option.map_eq_none']
    exact Option.not_isSome_iff_eq_none.mp h

lemma subset_addToken (l : List TokenStr) (t : TokenStr) :
    l ⊆ addToken l t := by
  unfold addToken
  split
  · exact fun _ h => h
  · exact fun _ h => List.mem_cons_of_mem _ h

lemma mem_addToken_self (l : List TokenStr) (t : TokenStr) :
    t ∈ addToken l t := by
  unfold addToken
  split
  · assumption
  · exact List.mem_cons_self _ _

/-- A revoked token introspects as inactive, whatever its claims. -/
lemma introspect_revoked_inactive (st : Store) (secret : String) (now : Nat)
    (t : TokenStr) (h : t ∈ st.revoked_tokens) :
    (introspect st secret now t).active = false := by
  unfold introspect
  cases hd : jwtDecode t secret ["HS256"] now with
  | error e => rfl
  | ok c => simp [StorageManager.is_token_revoked, h]

/-- Claim C2: a token whose header declares any algorithm other than the
configured `HS256` (including `none` and unknown algorithms) is rejected
by verification, and the introspect operation reports `active = false`
regardless of the token's claims, its signature, or the store state. -/
theorem C2_wrong_algorithm_inactive (st : Store) (secret : String) (now : Nat)
    (tok : Token) (h : tok.alg ≠ "HS256") :
    jwtDecode (.wellFormed tok) secret ["HS256"] now = .error .invalid ∧
    (introspect st secret now (.wellFormed tok)).active = false := by
  have hdec : jwtDecode (.wellFormed tok) secret ["HS256"] now =
      .error .invalid := by
    simp only [jwtDecode]
    rw [if_pos (by simpa using h)]
  exact ⟨hdec, by simp [introspect, hdec]⟩

/-- Witness for C2: a forged token with header algorithm `none` and
arbitrary claims introspects as inactive on the empty store. -/
theorem C2_wrong_algorithm_inactive_witness :
    jwtDecode
        (.wellFormed
          { alg := "none"
            payload := { iss := "x", sub := "a1", exp := 10 ^ 9, iat := 0 }
            sig := .forged "" })
        "jwt-signing-secret" ["HS256"] 0 = .error .invalid ∧
    (introspect {} "jwt-signing-secret" 0
        (.wellFormed
          { alg := "none"
            payload := { iss := "x", sub := "a1", exp := 10 ^ 9, iat := 0 }
            sig := .forged "" })).active = false :=
  C2_wrong_algorithm_inactive {} "jwt-signing-secret" 0
    { alg := "none"
      payload := { iss := "x", sub := "a1", exp := 10 ^ 9, iat := 0 }
      sig := .forged "" }
    (by decide)

/-- Concrete claim set whose `delegation_id` resolves to no delegation:
used to exhibit the behaviour of `/introspect`. -/
def c1Claims : Claims :=
  { iss := "http://localhost:5000"
    sub := "alice"
    actor := some "agent-client-id"
    scope := ["read:data"]
    exp := 1000
    iat := 0
    jti := some "acc-1"
    delegation_id := some "delegation-gone" }

/-- The corresponding access token, signed with the server secret under
`HS256`. -/
def c1Token : TokenStr :=
  jwtEncode c1Claims "jwt-signing-secret" "HS256"

/-- A store with no delegations at all and an empty revocation set. -/
def c1Store : Store := {}

/-- Counterexample to claim C1 as stated: `c1Token` is unexpired at
`now = 10`, absent from the revocation set, and its `delegation_id`
resolves to no delegation (the store has none), yet `/introspect`
reports `active = true`. The handler never consults the delegation. -/
theorem C1_counterexample_introspect_ignores_delegation :
    (introspect c1Store "jwt-signing-secret" 10 c1Token).active = true ∧
    StorageManager.is_token_revoked c1Store c1Token = false ∧
    c1Claims.delegation_id = some "delegation-gone" ∧
    StorageManager.get_delegation c1Store "delegation-gone" = none := by
  decide

/-- Claim C1 as amended: the `/introspect` handler reports
`active = true` iff the token is a well-formed JWT whose header declares
`HS256`, whose signature is the HMAC of its payload under the configured
secret, whose `exp` lies in the future, and which is absent from the
revocation set. The delegation referenced by `delegation_id` is never
consulted. -/
theorem C1_amended_introspect_active_iff (st : Store) (secret : String)
    (now : Nat) (t : TokenStr) :
    (introspect st secret now t).active = true ↔
      ((∃ tok : Token, t = TokenStr.wellFormed tok ∧ tok.alg = "HS256" ∧
          tok.sig = Sig.hmac "HS256" secret tok.payload ∧
          now < tok.payload.exp) ∧
        t ∉ st.revoked_tokens) := by
  cases t with
  | malformed s =>
    simp [introspect, jwtDecode]
  | wellFormed tok =>
    by_cases halg : tok.alg = "HS256"
    · by_cases hsig : tok.sig = Sig.hmac tok.alg secret tok.payload
      · by_cases hexp : tok.payload.exp ≤ now
        · have hdec : jwtDecode (.wellFormed tok) secret ["HS256"] now =
              .error .expired := by
            simp [jwtDecode, halg, hsig, hexp]
          simp [introspect, hdec, halg]
          intro _ _
          omega
        · have hdec : jwtDecode (.wellFormed tok) secret ["HS256"] now =
              .ok tok.payload := by
            simp [jwtDecode, halg, hsig, hexp]
          by_cases hrev : TokenStr.wellFormed tok ∈ st.revoked_tokens
          · have : (introspect st secret now (.wellFormed tok)).active = false := by
              simp [introspect, hdec, StorageManager.is_token_revoked, hrev]
            simp [this, hrev]
          · have : (introspect st secret now (.wellFormed tok)).active = true := by
              simp [introspect, hdec, StorageManager.is_token_revoked, hrev]
            simp [this, hrev, halg, hsig.symm, halg ▸ hsig]
            omega
      · rw [halg] at hsig
        have hdec : jwtDecode (.wellFormed tok) secret ["HS256"] now =
            .error .invalid := by
          simp [jwtDecode, halg, hsig]
        simp [introspect, hdec, halg]
        intro hs
        exact absurd hs hsig
    · have hdec : jwtDecode (.wellFormed tok) secret ["HS256"] now =
          .error .invalid := by
        simp only [jwtDecode]
        rw [if_pos (by simpa using halg)]
      simp [introspect, hdec, halg]

/-- The `exp` claim of a token string (0 for a malformed string). -/
def tokenExp : TokenStr → Nat
  | .wellFormed tok => tok.payload.exp
  | .malformed _ => 0

/-- Configuration with the repository defaults: 5-minute access tokens,
10-minute delegation tokens, `HS256`. -/
def defaultCfg : Config :=
  { jwt_secret := "jwt-signing-secret"
    jwt_algorithm := "HS256"
    access_token_expiry := 5
    delegation_token_expiry := 10
    auth_server_url := "http://localhost:5000" }

/-- An approved delegation that expires 60 seconds from `now = 1000`:
minting an access token from it exercises the missing clamp. -/
def c3Delegation : Delegation :=
  { id := "delegation-c3"
    agent_id := "agent-client-id"
    agent_name := "CalendarAgent"
    user_id := "alice"
    scopes := ["read:calendar"]
    status := .approved
    created_at := 460
    approved_at := some 470
    expires_at := 1060 }

/-- Counterexample to claim C3 as stated: from the approved, unexpired,
unrevoked delegation `c3Delegation` (whose `expires_at` is 1060),
`generate_access_token` at `now = 1000` mints a token with
`exp = 1000 + 5 * 60 = 1300`, which differs from
`min(now + access_ttl, expires_at) = 1060` and exceeds `expires_at`. -/
theorem C3_counterexample_exp_exceeds_delegation_expiry :
    c3Delegation.is_active 1000 = true ∧
    (match Delegation.generate_access_token c3Delegation defaultCfg 1000 "acc-c3" with
      | .ok (_, tok) => tokenExp tok
      | .error _ => 0) = 1300 ∧
    min (1000 + defaultCfg.access_token_expiry * 60) c3Delegation.expires_at = 1060 ∧
    ¬ (1300 : Nat) ≤ c3Delegation.expires_at := by
  decide

/-- Claim C3 as amended: an access token minted from an approved,
unexpired delegation `d` carries `exp = now + access_token_expiry
minutes` with no clamp against `d.expires_at` (so it can exceed it);
the `/token` endpoint mints with the same unclamped expiry. -/
theorem C3_amended_access_token_exp (d : Delegation) (cfg : Config)
    (now : Nat) (jti : String) (h : d.is_active now = true) :
    (match Delegation.generate_access_token d cfg now jti with
      | .ok (_, tok) => tokenExp tok
      | .error _ => 0) = now + cfg.access_token_expiry * 60 ∧
    (∀ st t cv resp st',
      token_endpoint st cfg now t cv = .ok (resp, st') →
      tokenExp resp.access_token = now + cfg.access_token_expiry * 60) := by
  constructor
  · simp [Delegation.generate_access_token, h, jwtEncode, tokenExp]
  · intro st t cv resp st' he
    unfold token_endpoint at he
    split at he
    · exact absurd he (by simp)
    · exact absurd he (by simp)
    · split at he
      · exact absurd he (by simp)
      · split at he
        · exact absurd he (by simp)
        · split at he
          · exact absurd he (by simp)
          · simp only [Except.ok.injEq, Prod.mk.injEq] at he
            rw [← he.1]
            simp [jwtEncode, tokenExp]

/-- Witness for C3 as amended, at the concrete counterexample input. -/
theorem C3_amended_access_token_exp_witness :
    c3Delegation.is_active 1000 = true ∧
    (match Delegation.generate_access_token c3Delegation defaultCfg 1000 "acc-c3" with
      | .ok (_, tok) => tokenExp tok
      | .error _ => 0) = 1000 + defaultCfg.access_token_expiry * 60 :=
  ⟨by decide,
    (C3_amended_access_token_exp c3Delegation defaultCfg 1000 "acc-c3" (by decide)).1⟩

lemma cascadeRevoke_fst (aid : String) (now : Nat) (p : String × Delegation) :
    (StorageManager.cascadeRevoke aid now p).1 = p.1 := by
  unfold StorageManager.cascadeRevoke
  split
  · split <;> rfl
  · rfl

lemma dictGet_map_cascade (l : List (String × Delegation)) (aid : String)
    (now : Nat) (k : String) :
    dictGet (l.map (StorageManager.cascadeRevoke aid now)) k =
      (dictGet l k).map
        (fun d => (StorageManager.cascadeRevoke aid now (k, d)).2) := by
  induction l with
  | nil => rfl
  | cons p tl ih =>
    obtain ⟨a, b⟩ := p
    rw [List.map_cons, dictGet_cons, dictGet_cons]
    by_cases hk : a = k
    · subst hk
      rw [if_pos (show (StorageManager.cascadeRevoke aid now (a, b)).1 = a from
            cascadeRevoke_fst aid now (a, b)),
        if_pos (show (a, b).1 = a from rfl)]
      rfl
    · have h1 : ¬ (StorageManager.cascadeRevoke aid now (a, b)).1 = k := by
        rw [cascadeRevoke_fst]
        exact hk
      rw [if_neg h1, if_neg hk, ih]

lemma cascadeRevoke_approved (aid : String) (now : Nat) (did : String)
    (d : Delegation) (ha : d.agent_id = aid)
    (hs : d.status = DelegationStatus.approved) :
    StorageManager.cascadeRevoke aid now (did, d) =
      (did, { d with status := DelegationStatus.revoked, revoked_at := some now }) := by
  unfold StorageManager.cascadeRevoke
  rw [if_pos ⟨ha, hs⟩]
  simp [Delegation.revoke, hs]

lemma dictGet_del_self {α : Type} (l : List (String × α)) (k : String) :
    dictGet (dictDel l k) k = none := by
  induction l with
  | nil => rfl
  | cons p tl ih =>
    unfold dictDel at *
    rw [List.filter_cons]
    by_cases hk : p.1 = k
    · rw [if_neg (by simp [hk])]
      exact ih
    · rw [if_pos (by simpa using hk), dictGet_cons, if_neg hk]
      exact ih

/-- Introspection reads only the revocation set from the store. -/
lemma introspect_congr_revoked (st st' : Store)
    (h : st.revoked_tokens = st'.revoked_tokens) (secret : String)
    (now : Nat) (t : TokenStr) :
    introspect st secret now t = introspect st' secret now t := by
  unfold introspect StorageManager.is_token_revoked
  rw [h]

/-- The claims of the access token previously minted from the approved
delegation of agent `a2`. -/
def c4AccessClaims : Claims :=
  { iss := "http://localhost:5000"
    sub := "alice"
    actor := some "a2"
    scope := ["read:data"]
    exp := 2000
    iat := 0
    jti := some "acc-c4"
    delegation_id := some "delegation-c4" }

/-- The access token of delegation `delegation-c4`. -/
def c4Token : TokenStr :=
  jwtEncode c4AccessClaims "jwt-signing-secret" "HS256"

/-- The delegation token of delegation `delegation-c4`. -/
def c4DelToken : TokenStr :=
  jwtEncode
    { iss := "http://localhost:5000"
      sub := "a2"
      delegator := some "alice"
      scope := ["read:data"]
      exp := 1600
      iat := 0
      jti := some "del-c4"
      delegation_id := some "delegation-c4" }
    "jwt-signing-secret" "HS256"

/-- An approved delegation of agent `a2` with both tokens outstanding. -/
def c4Delegation : Delegation :=
  { id := "delegation-c4"
    agent_id := "a2"
    agent_name := "Agent Two"
    user_id := "alice"
    scopes := ["read:data"]
    status := .approved
    created_at := 0
    approved_at := some 10
    expires_at := 2000
    delegation_token := some c4DelToken
    access_token := some c4Token }

/-- A store holding agent `a2`, user `alice`, the approved delegation
and its tracked access token; nothing is revoked. -/
def c4Store : Store :=
  { agents := [("a2", { id := "a2", name := "Agent Two" })]
    users := [("alice", "password123")]
    delegations := [("delegation-c4", c4Delegation)]
    active_tokens := [c4Token]
    revoked_tokens := [] }

/-- Counterexample to claim C4 as stated: deleting agent `a2` does move
its approved delegation to `revoked`, but the delegation's access token
is not added to the revocation set and still introspects as
`active = true` afterwards. -/
theorem C4_counterexample_token_survives_agent_deletion :
    (StorageManager.delete_agent c4Store "a2" 1500).1 = true ∧
    (dictGet (StorageManager.delete_agent c4Store "a2" 1500).2.delegations
        "delegation-c4").map Delegation.status = some DelegationStatus.revoked ∧
    StorageManager.is_token_revoked
      (StorageManager.delete_agent c4Store "a2" 1500).2 c4Token = false ∧
    (introspect (StorageManager.delete_agent c4Store "a2" 1500).2
        "jwt-signing-secret" 1500 c4Token).active = true := by
  decide

/-- Claim C4 as amended: deleting an existing agent removes its record
and, in the same atomic storage operation, moves each of its approved
delegations to `revoked` with `revoked_at` stamped; but the revocation
set is left unchanged, so every token's introspection result (in
particular that of access tokens previously minted from those
delegations) is exactly what it was before the deletion. -/
theorem C4_amended_delete_agent_no_token_revocation (st : Store)
    (agent_id : String) (now : Nat)
    (h : (dictGet st.agents agent_id).isSome) :
    (StorageManager.delete_agent st agent_id now).1 = true ∧
    dictGet (StorageManager.delete_agent st agent_id now).2.agents agent_id = none ∧
    (∀ did d, dictGet st.delegations did = some d → d.agent_id = agent_id →
      d.status = DelegationStatus.approved →
      dictGet (StorageManager.delete_agent st agent_id now).2.delegations did =
        some { d with status := DelegationStatus.revoked, revoked_at := some now }) ∧
    (StorageManager.delete_agent st agent_id now).2.revoked_tokens =
      st.revoked_tokens ∧
    (∀ secret n t,
      (introspect (StorageManager.delete_agent st agent_id now).2 secret n t).active =
        (introspect st secret n t).active) := by
  have hn : (dictGet st.agents agent_id).isNone = false := by
    rw [Option.isNone_eq_false_iff]
    exact h
  have hdel : StorageManager.delete_agent st agent_id now =
      (true, { st with
                agents := dictDel st.agents agent_id
                delegations := st.delegations.map
                  (StorageManager.cascadeRevoke agent_id now) }) := by
    unfold StorageManager.delete_agent
    rw [if_neg (by simp [hn])]
  refine ⟨by rw [hdel], ?_, ?_, by rw [hdel], ?_⟩
  · rw [hdel]
    exact dictGet_del_self st.agents agent_id
  · intro did d hd ha hs
    rw [hdel]
    show dictGet (st.delegations.map (StorageManager.cascadeRevoke agent_id now)) did = _
    rw [dictGet_map_cascade, hd, Option.map_some', cascadeRevoke_approved agent_id now did d ha hs]
  · intro secret n t
    rw [introspect_congr_revoked (StorageManager.delete_agent st agent_id now).2 st
      (by rw [hdel]) secret n t]

/-- Witness for C4 as amended at the concrete store `c4Store`. -/
theorem C4_amended_delete_agent_witness :
    ((dictGet c4Store.agents "a2").isSome = true) ∧
    (StorageManager.delete_agent c4Store "a2" 1500).1 = true ∧
    (StorageManager.delete_agent c4Store "a2" 1500).2.revoked_tokens =
      c4Store.revoked_tokens :=
  ⟨by decide,
    (C4_amended_delete_agent_no_token_revocation c4Store "a2" 1500 (by decide)).1,
    (C4_amended_delete_agent_no_token_revocation c4Store "a2" 1500 (by decide)).2.2.2.1⟩

example : pySplit "write:everything admin" = ["write:everything", "admin"] := by
  decide

example : pySplit "read:data" = ["read:data"] := by
  decide

/-- A store with agent `agent-client-id` declaring
`allowed_scopes = [read:calendar, write:calendar]` and user `alice`. -/
def c5Store : Store :=
  { agents := [("agent-client-id",
      { id := "agent-client-id"
        name := "CalendarAgent"
        description := "Default calendar agent for demonstration"
        scopes := ["read:calendar", "write:calendar"] })]
    users := [("alice", "password123")] }

/-- Counterexample to claim C5 as stated: the agent declares a
non-empty `scopes` list, yet `authorize` grants the requested scope
`admin:everything` (not in the agent's list) and returns a delegation
token carrying it — no `scope_denied` failure exists. -/
theorem C5_counterexample_no_scope_validation :
    (dictGet c5Store.agents "agent-client-id").map Agent.scopes =
      some ["read:calendar", "write:calendar"] ∧
    authorize c5Store defaultCfg "agent-client-id" "alice" "admin:everything"
        none none 0 =
      .ok (jwtEncode
        { iss := "http://localhost:5000"
          sub := "agent-client-id"
          delegator := some "alice"
          scope := ["admin:everything"]
          exp := 600
          iat := 0
          code_challenge_method := some "plain" }
        "jwt-signing-secret" "HS256") ∧
    ¬ ("admin:everything" ∈ (["read:calendar", "write:calendar"] : List String)) := by
  decide

/-- Claim C5 as amended: neither `authorize` nor
`StorageManager.create_delegation` validates requested scopes against
the agent's `allowed_scopes`; whenever the agent and user exist, the
requested scopes pass through verbatim into the delegation token,
respectively the stored delegation, and no `scope_denied` error is
possible. -/
theorem C5_amended_scopes_not_validated (st : Store) (cfg : Config)
    (client_id user scope : String) (cc ccm : Option String)
    (did : String) (scopes : List String) (now : Nat)
    (hagent : (dictGet st.agents client_id).isSome)
    (huser : (dictGet st.users user).isSome) :
    authorize st cfg client_id user scope cc ccm now =
      .ok (jwtEncode
        { iss := cfg.auth_server_url
          sub := client_id
          delegator := some user
          scope := pySplit scope
          exp := now + cfg.delegation_token_expiry * 60
          iat := now
          code_challenge := cc
          code_challenge_method := some (ccm.getD "plain") }
        cfg.jwt_secret "HS256") ∧
    ((StorageManager.create_delegation st cfg did client_id user scopes now).1.map
        Delegation.scopes = .ok scopes) := by
  obtain ⟨a, ha⟩ := Option.isSome_iff_exists.mp hagent
  obtain ⟨u, hu⟩ := Option.isSome_iff_exists.mp huser
  constructor
  · unfold authorize StorageManager.get_agent StorageManager.get_user
    rw [ha, hu]
    simp
  · unfold StorageManager.create_delegation
    rw [ha]
    simp [hu, Except.map]

/-- Witness for C5 as amended, at the concrete store `c5Store`. -/
theorem C5_amended_scopes_not_validated_witness :
    (dictGet c5Store.agents "agent-client-id").isSome = true ∧
    (dictGet c5Store.users "alice").isSome = true ∧
    authorize c5Store defaultCfg "agent-client-id" "alice" "admin:everything"
        none none 0 =
      .ok (jwtEncode
        { iss := defaultCfg.auth_server_url
          sub := "agent-client-id"
          delegator := some "alice"
          scope := pySplit "admin:everything"
          exp := 0 + defaultCfg.delegation_token_expiry * 60
          iat := 0
          code_challenge := none
          code_challenge_method := some ((none : Option String).getD "plain") }
        defaultCfg.jwt_secret "HS256") :=
  ⟨by decide, by decide,
    (C5_amended_scopes_not_validated c5Store defaultCfg "agent-client-id" "alice"
      "admin:everything" none none "delegation-x" ["admin:everything"] 0
      (by decide) (by decide)).1⟩

/-- Claim C6: for a delegation token that verifies (`hdec`), is not
revoked, and carries a recorded `code_challenge` (and the `delegator`
claim every server-minted delegation token has): exchanging with no
verifier fails with `pkce_required`; with method `S256` the exchange
succeeds exactly when `base64url_nopad(sha256(verifier))` equals the
challenge and otherwise fails with `pkce_mismatch`; with method `plain`
it succeeds exactly when the verifier equals the challenge. -/
theorem C6_pkce_exchange (st : Store) (cfg : Config) (now : Nat)
    (t : TokenStr) (c : Claims) (ch : String)
    (hdec : jwtDecode t cfg.jwt_secret ["HS256"] now = .ok c)
    (hrev : t ∉ st.revoked_tokens)
    (hch : c.code_challenge = some ch)
    (hdel : c.delegator.isSome) :
    token_endpoint st cfg now t none = .error .pkceRequired ∧
    (c.code_challenge_method = some "S256" →
      ∀ v, (s256hash v = ch →
              ∃ resp st', token_endpoint st cfg now t (some v) = .ok (resp, st')) ∧
           (s256hash v ≠ ch →
              token_endpoint st cfg now t (some v) = .error .pkceMismatch)) ∧
    (c.code_challenge_method = some "plain" →
      ∀ v, (v = ch →
              ∃ resp st', token_endpoint st cfg now t (some v) = .ok (resp, st')) ∧
           (v ≠ ch →
              token_endpoint st cfg now t (some v) = .error .pkceMismatch)) := by
  obtain ⟨u, hu⟩ := Option.isSome_iff_exists.mp hdel
  have hrv : StorageManager.is_token_revoked st t = false := by
    simp [StorageManager.is_token_revoked, hrev]
  refine ⟨?_, ?_, ?_⟩
  · unfold token_endpoint
    rw [hdec]
    simp only [hrv, Bool.false_eq_true, if_false]
    have : pkce_check c.code_challenge (c.code_challenge_method.getD "plain")
        none = .error .pkceRequired := by
      rw [hch]
      rfl
    rw [this]
  · intro hmth v
    have hm : c.code_challenge_method.getD "plain" = "S256" := by
      rw [hmth]
      rfl
    constructor
    · intro hv
      unfold token_endpoint
      rw [hdec]
      simp only [hrv, Bool.false_eq_true, if_false]
      have : pkce_check c.code_challenge (c.code_challenge_method.getD "plain")
          (some v) = .ok () := by
        rw [hch, hm]
        simp [pkce_check, hv]
      rw [this, hu]
      exact ⟨_, _, rfl⟩
    · intro hv
      unfold token_endpoint
      rw [hdec]
      simp only [hrv, Bool.false_eq_true, if_false]
      have : pkce_check c.code_challenge (c.code_challenge_method.getD "plain")
          (some v) = .error .pkceMismatch := by
        rw [hch, hm]
        simp [pkce_check, hv]
      rw [this]
  · intro hmth v
    have hm : c.code_challenge_method.getD "plain" = "plain" := by
      rw [hmth]
      rfl
    constructor
    · intro hv
      unfold token_endpoint
      rw [hdec]
      simp only [hrv, Bool.false_eq_true, if_false]
      have : pkce_check c.code_challenge (c.code_challenge_method.getD "plain")
          (some v) = .ok () := by
        rw [hch, hm]
        simp [pkce_check, hv]
      rw [this, hu]
      exact ⟨_, _, rfl⟩
    · intro hv
      unfold token_endpoint
      rw [hdec]
      simp only [hrv, Bool.false_eq_true, if_false]
      have : pkce_check c.code_challenge (c.code_challenge_method.getD "plain")
          (some v) = .error .pkceMismatch := by
        rw [hch, hm]
        simp [pkce_check, hv]
      rw [this]

/-- A delegation-token claim set carrying an S256 PKCE challenge for
the verifier `verifier-123`. -/
def c6Claims : Claims :=
  { iss := "http://localhost:5000"
    sub := "agent-client-id"
    delegator := some "alice"
    scope := ["read:data"]
    exp := 600
    iat := 0
    code_challenge := some (s256hash "verifier-123")
    code_challenge_method := some "S256" }

/-- The correspondingly signed delegation token. -/
def c6Token : TokenStr :=
  jwtEncode c6Claims "jwt-signing-secret" "HS256"

/-- Witness for C6 at a concrete S256-protected delegation token: no
verifier fails with `pkce_required`, a wrong verifier fails with
`pkce_mismatch`, and the matching verifier succeeds. -/
theorem C6_pkce_exchange_witness :
    token_endpoint {} defaultCfg 0 c6Token none = .error .pkceRequired ∧
    token_endpoint {} defaultCfg 0 c6Token (some "wrong-verifier") =
      .error .pkceMismatch ∧
    (∃ resp st',
      token_endpoint {} defaultCfg 0 c6Token (some "verifier-123") =
        .ok (resp, st')) :=
  ⟨(C6_pkce_exchange {} defaultCfg 0 c6Token c6Claims (s256hash "verifier-123")
      (by decide) (by decide) rfl rfl).1,
    ((C6_pkce_exchange {} defaultCfg 0 c6Token c6Claims (s256hash "verifier-123")
      (by decide) (by decide) rfl rfl).2.1 rfl "wrong-verifier").2 (by decide),
    ((C6_pkce_exchange {} defaultCfg 0 c6Token c6Claims (s256hash "verifier-123")
      (by decide) (by decide) rfl rfl).2.1 rfl "verifier-123").1 rfl⟩

/-- Claim C7: revoking a delegation in state `pending` or `approved`
succeeds, stamps `revoked_at`, moves the status to `revoked`, and adds
its outstanding delegation token and access token (when each exists) to
the revocation set — all in the single locked storage operation. -/
theorem C7_revoke_delegation_revokes_tokens (st : Store)
    (delegation_id : String) (now : Nat) (d : Delegation)
    (hd : dictGet st.delegations delegation_id = some d)
    (hs : d.status = DelegationStatus.pending ∨
          d.status = DelegationStatus.approved) :
    (StorageManager.revoke_delegation st delegation_id now).1 = .ok true ∧
    dictGet (StorageManager.revoke_delegation st delegation_id now).2.delegations
        delegation_id =
      some { d with status := DelegationStatus.revoked, revoked_at := some now } ∧
    (∀ t, d.delegation_token = some t →
      t ∈ (StorageManager.revoke_delegation st delegation_id now).2.revoked_tokens) ∧
    (∀ t, d.access_token = some t →
      t ∈ (StorageManager.revoke_delegation st delegation_id now).2.revoked_tokens) := by
  have hrevoke : d.revoke now =
      .ok { d with status := DelegationStatus.revoked, revoked_at := some now } := by
    unfold Delegation.revoke
    rcases hs with h | h <;> rw [if_neg (by simp [h])]
  have hr : StorageManager.revoke_delegation st delegation_id now =
      (.ok true,
        { st with
            revoked_tokens :=
              (match d.access_token with
                | some t => addToken
                    (match d.delegation_token with
                      | some t' => addToken st.revoked_tokens t'
                      | none => st.revoked_tokens) t
                | none =>
                    match d.delegation_token with
                    | some t' => addToken st.revoked_tokens t'
                    | none => st.revoked_tokens)
            delegations :=
              dictSet st.delegations delegation_id
                { d with status := DelegationStatus.revoked, revoked_at := some now } }) := by
    unfold StorageManager.revoke_delegation
    rw [hd]
    simp only [hrevoke]
  refine ⟨by rw [hr], ?_, ?_, ?_⟩
  · rw [hr]
    exact dictGet_set_self st.delegations delegation_id _
  · intro t ht
    rw [hr]
    show t ∈ (match d.access_token with
      | some t0 => addToken
          (match d.delegation_token with
            | some t' => addToken st.revoked_tokens t'
            | none => st.revoked_tokens) t0
      | none =>
          match d.delegation_token with
          | some t' => addToken st.revoked_tokens t'
          | none => st.revoked_tokens)
    rw [ht]
    cases d.access_token with
    | none => exact mem_addToken_self st.revoked_tokens t
    | some t0 => exact subset_addToken _ t0 (mem_addToken_self st.revoked_tokens t)
  · intro t ht
    rw [hr]
    show t ∈ (match d.access_token with
      | some t0 => addToken
          (match d.delegation_token with
            | some t' => addToken st.revoked_tokens t'
            | none => st.revoked_tokens) t0
      | none =>
          match d.delegation_token with
          | some t' => addToken st.revoked_tokens t'
          | none => st.revoked_tokens)
    rw [ht]
    exact mem_addToken_self _ t

/-- Witness for C7 at the concrete store `c4Store`, whose delegation
`delegation-c4` is approved with both tokens outstanding. -/
theorem C7_revoke_delegation_witness :
    (StorageManager.revoke_delegation c4Store "delegation-c4" 1200).1 = .ok true ∧
    c4DelToken ∈
      (StorageManager.revoke_delegation c4Store "delegation-c4" 1200).2.revoked_tokens ∧
    c4Token ∈
      (StorageManager.revoke_delegation c4Store "delegation-c4" 1200).2.revoked_tokens :=
  ⟨(C7_revoke_delegation_revokes_tokens c4Store "delegation-c4" 1200 c4Delegation
      (by decide) (Or.inr (by decide))).1,
    (C7_revoke_delegation_revokes_tokens c4Store "delegation-c4" 1200 c4Delegation
      (by decide) (Or.inr (by decide))).2.2.1 c4DelToken rfl,
    (C7_revoke_delegation_revokes_tokens c4Store "delegation-c4" 1200 c4Delegation
      (by decide) (Or.inr (by decide))).2.2.2 c4Token rfl⟩

lemma add_active_token_revoked (st : Store) (t : TokenStr) :
    (StorageManager.add_active_token st t).revoked_tokens = st.revoked_tokens := by
  unfold StorageManager.add_active_token
  split <;> rfl

lemma token_endpoint_ok_revoked (st : Store) (cfg : Config) (now : Nat)
    (t : TokenStr) (cv : Option String) (resp : TokenResponse) (st' : Store)
    (h : token_endpoint st cfg now t cv = .ok (resp, st')) :
    st'.revoked_tokens = st.revoked_tokens := by
  unfold token_endpoint at h
  split at h
  · exact absurd h (by simp)
  · exact absurd h (by simp)
  · split at h
    · exact absurd h (by simp)
    · split at h
      · exact absurd h (by simp)
      · split at h
        · exact absurd h (by simp)
        · simp only [Except.ok.injEq, Prod.mk.injEq] at h
          rw [← h.2]
          exact add_active_token_revoked st _

/-- Every storage-mutating operation of the repository only ever grows
the revoked-token set. -/
lemma step_revoked_mono {cfg : Config} {st st' : Store}
    (h : Step cfg st st') : st.revoked_tokens ⊆ st'.revoked_tokens := by
  cases h with
  | create_agent a =>
    unfold StorageManager.create_agent
    split <;> exact fun _ hx => hx
  | update_agent aid f =>
    unfold StorageManager.update_agent
    cases dictGet st.agents aid <;> exact fun _ hx => hx
  | delete_agent aid now =>
    unfold StorageManager.delete_agent
    split <;> exact fun _ hx => hx
  | create_user u p =>
    unfold StorageManager.create_user
    split <;> exact fun _ hx => hx
  | create_delegation did aid uid scopes now =>
    unfold StorageManager.create_delegation
    cases dictGet st.agents aid with
    | none => exact fun _ hx => hx
    | some ag =>
      dsimp only
      split <;> exact fun _ hx => hx
  | approve_delegation did now jti =>
    unfold StorageManager.approve_delegation
    cases dictGet st.delegations did with
    | none => exact fun _ hx => hx
    | some d =>
      dsimp only
      cases d.approve cfg now jti with
      | error e => exact fun _ hx => hx
      | ok pr =>
        obtain ⟨d1, tok⟩ := pr
        dsimp only
        split <;> exact fun _ hx => hx
  | deny_delegation did =>
    unfold StorageManager.deny_delegation
    cases dictGet st.delegations did with
    | none => exact fun _ hx => hx
    | some d =>
      dsimp only
      cases d.deny with
      | error e => exact fun _ hx => hx
      | ok d' => exact fun _ hx => hx
  | revoke_delegation did now =>
    unfold StorageManager.revoke_delegation
    cases dictGet st.delegations did with
    | none => exact fun _ hx => hx
    | some d =>
      dsimp only
      have h1 : st.revoked_tokens ⊆
          (match d.delegation_token with
            | some t' => addToken st.revoked_tokens t'
            | none => st.revoked_tokens) := by
        cases d.delegation_token with
        | none => exact fun _ hx => hx
        | some t' => exact subset_addToken _ t'
      have h2 : st.revoked_tokens ⊆
          (match d.access_token with
            | some t => addToken
                (match d.delegation_token with
                  | some t' => addToken st.revoked_tokens t'
                  | none => st.revoked_tokens) t
            | none =>
                match d.delegation_token with
                | some t' => addToken st.revoked_tokens t'
                | none => st.revoked_tokens) := by
        cases d.access_token with
        | none => exact h1
        | some t => exact h1.trans (subset_addToken _ t)
      cases d.revoke now with
      | error e => exact h2
      | ok d' => exact h2
  | add_active_token t =>
    rw [add_active_token_revoked]
    exact fun _ hx => hx
  | revoke_token t =>
    exact subset_addToken st.revoked_tokens t
  | cleanup_expired_tokens now =>
    exact fun _ hx => hx
  | token_exchange st2 now tstr cv resp hok =>
    rw [token_endpoint_ok_revoked _ _ _ _ _ _ _ hok]
    exact fun _ hx => hx

/-- Claim C8: revocation is monotone. Once a token is in the revocation
set (so introspection reports it inactive due to revocation), no finite
sequence of repository operations removes it, and every later
introspection still reports `active = false`. -/
theorem C8_revocation_monotone (cfg : Config) (st st' : Store) (t : TokenStr)
    (hrev : t ∈ st.revoked_tokens) (hsteps : Steps cfg st st') :
    t ∈ st'.revoked_tokens ∧
    (∀ secret now, (introspect st' secret now t).active = false) := by
  have hsub : st.revoked_tokens ⊆ st'.revoked_tokens := by
    induction hsteps with
    | refl => exact fun _ hx => hx
    | tail hab hbc ih => exact ih.trans (step_revoked_mono hbc)
  refine ⟨hsub hrev, fun secret now => ?_⟩
  exact introspect_revoked_inactive st' secret now t (hsub hrev)

/-- A store in which `c4Token` has already been revoked. -/
def c8Store : Store :=
  { active_tokens := [c4Token]
    revoked_tokens := [c4Token] }

/-- Witness for C8: after a further unrelated revocation step, the
previously revoked `c4Token` is still revoked and still introspects as
inactive. -/
theorem C8_revocation_monotone_witness :
    c4Token ∈
      (StorageManager.revoke_token c8Store (TokenStr.malformed "other")).revoked_tokens ∧
    (introspect (StorageManager.revoke_token c8Store (TokenStr.malformed "other"))
        "jwt-signing-secret" 100 c4Token).active = false :=
  ⟨(C8_revocation_monotone defaultCfg c8Store
      (StorageManager.revoke_token c8Store (TokenStr.malformed "other")) c4Token
      (by decide)
      (Relation.ReflTransGen.single
        (Step.revoke_token c8Store (TokenStr.malformed "other")))).1,
    (C8_revocation_monotone defaultCfg c8Store
      (StorageManager.revoke_token c8Store (TokenStr.malformed "other")) c4Token
      (by decide)
      (Relation.ReflTransGen.single
        (Step.revoke_token c8Store (TokenStr.malformed "other")))).2
      "jwt-signing-secret" 100⟩

/-- Claim C9: approval succeeds only from `pending`. Approving a
delegation whose status is not `pending` (in particular one already
approved) is rejected with the `ValueError` message, and the store —
hence the delegation's status, `approved_at`, and previously minted
delegation token — is left completely unchanged. -/
theorem C9_approve_only_from_pending (st : Store) (cfg : Config)
    (did : String) (now : Nat) (jti : String) (d : Delegation)
    (hd : dictGet st.delegations did = some d)
    (hs : d.status ≠ DelegationStatus.pending) :
    (StorageManager.approve_delegation st cfg did now jti).1 =
      .error "Only pending delegations can be approved" ∧
    (StorageManager.approve_delegation st cfg did now jti).2 = st ∧
    dictGet (StorageManager.approve_delegation st cfg did now jti).2.delegations
        did = some d := by
  have happ : d.approve cfg now jti =
      .error "Only pending delegations can be approved" := by
    unfold Delegation.approve
    rw [if_pos hs]
  have hr : StorageManager.approve_delegation st cfg did now jti =
      (.error "Only pending delegations can be approved", st) := by
    unfold StorageManager.approve_delegation
    rw [hd]
    dsimp only
    rw [happ]
  exact ⟨by rw [hr], by rw [hr], by rw [hr]; exact hd⟩

/-- Witness for C9 at the already-approved delegation `delegation-c4`
of `c4Store`: a second approval is rejected and the store unchanged. -/
theorem C9_approve_only_from_pending_witness :
    (StorageManager.approve_delegation c4Store defaultCfg "delegation-c4"
        1300 "del-2").1 =
      .error "Only pending delegations can be approved" ∧
    (StorageManager.approve_delegation c4Store defaultCfg "delegation-c4"
        1300 "del-2").2 = c4Store :=
  ⟨(C9_approve_only_from_pending c4Store defaultCfg "delegation-c4" 1300 "del-2"
      c4Delegation (by decide) (by decide)).1,
    (C9_approve_only_from_pending c4Store defaultCfg "delegation-c4" 1300 "del-2"
      c4Delegation (by decide) (by decide)).2.1⟩

/-- Claim C10: `TokenInfo.from_token` is total (it is a plain function
of this embedding, mirroring the catch-all `except` branches of the
Python method); whenever the token is malformed or fails
signature/algorithm verification (any non-expiry decode failure), the
returned record is the invalid record: `is_valid = false`, token type
`invalid`, empty claims. Consequently `get_active_tokens` never
propagates a decode error and only ever returns records analysed as
valid. -/
theorem C10_from_token_invalid_total (t : TokenStr) (rev : List TokenStr)
    (cfg : Config) (now : Nat)
    (h : jwtDecode t cfg.jwt_secret [cfg.jwt_algorithm] now = .error .invalid) :
    TokenInfo.from_token t rev cfg now = TokenInfo.invalidRecord t ∧
    (TokenInfo.from_token t rev cfg now).is_valid = false ∧
    (TokenInfo.from_token t rev cfg now).token_type = "invalid" ∧
    (TokenInfo.from_token t rev cfg now).claims = none ∧
    (∀ st : Store, ∀ info ∈ StorageManager.get_active_tokens st cfg now,
      info.is_valid = true) := by
  have h0 : TokenInfo.from_token t rev cfg now = TokenInfo.invalidRecord t := by
    unfold TokenInfo.from_token
    cases t with
    | malformed s => rfl
    | wellFormed tok =>
      dsimp only [jwtDecodeUnverified]
      rw [h]
  refine ⟨h0, by rw [h0]; rfl, by rw [h0]; rfl, by rw [h0]; rfl, ?_⟩
  intro st info hinfo
  unfold StorageManager.get_active_tokens at hinfo
  rw [List.mem_filterMap] at hinfo
  obtain ⟨tok0, _, hif⟩ := hinfo
  dsimp only at hif
  split at hif
  · rename_i hvalid
    cases hif
    exact hvalid
  · exact absurd hif (by simp)

/-- Witness for C10 at a malformed token string. -/
theorem C10_from_token_invalid_total_witness :
    TokenInfo.from_token (TokenStr.malformed "not-a-jwt") [] defaultCfg 0 =
      TokenInfo.invalidRecord (TokenStr.malformed "not-a-jwt") ∧
    (TokenInfo.from_token (TokenStr.malformed "not-a-jwt") [] defaultCfg 0).is_valid =
      false :=
  ⟨(C10_from_token_invalid_total (TokenStr.malformed "not-a-jwt") [] defaultCfg 0
      (by decide)).1,
    (C10_from_token_invalid_total (TokenStr.malformed "not-a-jwt") [] defaultCfg 0
      (by decide)).2.1⟩
